import Mathlib

/-!
Verification of the event-normalization and contact-extraction core of the
Google Calendar export script (`main.py`).

The Python source is shallowly embedded: each relevant Python function is
translated into an executable Lean definition.  Python regular-expression
matching (`re.findall`) is embedded as a small backtracking matcher over
sequences of character-class atoms, with the exact greedy, leftmost,
non-overlapping semantics of the `re` module for the five patterns the script
uses (ASCII interpretation of the `\s`, `\d` and word classes).  Python
`datetime` values are embedded as explicit records; fallible parses return
`Option`, and the one statement of `parse_event_data` that can raise (the
subtraction of an offset-aware and an offset-naive datetime) is embedded in
`Except`.  Python `set`s are embedded as first-seen-order duplicate-free
lists (`pySet`); only membership and cardinality of these are ever asserted,
which are independent of the unspecified iteration order of a Python set.
-/

namespace GCal

/-! ### Backtracking regex engine (embedding of `re.findall` for the patterns used) -/

/-- One atom of a regular expression: either a greedy counted repetition of a
character class (`lo` to `hi` occurrences, `hi = none` meaning unbounded), or
a word-boundary assertion. -/
inductive Atom where
  | rep (cls : Char → Bool) (lo : Nat) (hi : Option Nat)
  | wb

/-- Length of the maximal prefix of `s` whose characters satisfy `cls`. -/
def runLen (cls : Char → Bool) : List Char → Nat
  | [] => 0
  | c :: cs => if cls c then runLen cls cs + 1 else 0

/-- ASCII word character, Python regex `\w` over ASCII. -/
def isWordC (c : Char) : Bool := c.isAlpha || c.isDigit || c = '_'

def wordB : Option Char → Bool
  | some c => isWordC c
  | none => false

/-- Python `\b`: position between a word and a non-word character (string
edges counting as non-word). -/
def boundaryB (prev : Option Char) (s : List Char) : Bool :=
  wordB prev != wordB s.head?

/-- Character at index `i` of `s`, if any. -/
def charAt (s : List Char) (i : Nat) : Option Char := (s.drop i).head?

/-- State of the backtracking matcher: either matching a list of atoms at the
current position, or trying repetition counts `k, k-1, ...` for a `rep` atom. -/
inductive MJob where
  | go (atoms : List Atom) (prev : Option Char) (s : List Char)
  | tryk (cls : Char → Bool) (lo : Nat) (rest : List Atom) (prev : Option Char)
      (s : List Char) (k : Nat)

/-- Fuel-indexed backtracking matcher.  `matchRun fuel (.go atoms prev s)`
returns the length of the greedy leftmost match of `atoms` at the start of
`s` (`prev` being the character just before `s`), or `none`.  Repetition
counts are tried from largest to smallest, which is exactly the greedy
backtracking order of Python's `re`. -/
def matchRun : Nat → MJob → Option Nat
  | 0, _ => none
  | _ + 1, .go [] _ _ => some 0
  | f + 1, .go (.wb :: rest) prev s =>
      if boundaryB prev s then matchRun f (.go rest prev s) else none
  | f + 1, .go (.rep cls lo hi :: rest) prev s =>
      matchRun f (.tryk cls lo rest prev s (min (runLen cls s) (hi.getD s.length)))
  | f + 1, .tryk cls lo rest prev s k =>
      if k < lo then none
      else
        match matchRun f (.go rest (if k = 0 then prev else charAt s (k - 1)) (s.drop k)) with
        | some m => some (k + m)
        | none =>
          match k with
          | 0 => none
          | k' + 1 => matchRun f (.tryk cls lo rest prev s k')

/-- Fuel sufficient for any root-to-leaf path of the matcher on `s`. -/
def matchFuel (atoms : List Atom) (s : List Char) : Nat :=
  (atoms.length + 2) * (s.length + 3)

/-- Scan of `re.findall`: try a match at every position from left to right;
on a match of positive length, record it and resume right after it. -/
def scanAllF : Nat → List Atom → Option Char → List Char → List String
  | 0, _, _, _ => []
  | _ + 1, _, _, [] => []
  | f + 1, atoms, prev, c :: rest =>
      match matchRun (matchFuel atoms (c :: rest)) (.go atoms prev (c :: rest)) with
      | some (n + 1) =>
          String.mk ((c :: rest).take (n + 1)) ::
            scanAllF f atoms (charAt (c :: rest) n) ((c :: rest).drop (n + 1))
      | _ => scanAllF f atoms (some c) rest

/-- `re.findall pattern text` for a pattern without capture groups. -/
def findall (atoms : List Atom) (text : String) : List String :=
  scanAllF (text.data.length + 1) atoms none text.data

/-! ### Character classes and the five patterns of `main.py` -/

def isDigitC (c : Char) : Bool := c.isDigit

/-- Python `\s` over ASCII. -/
def isWsC (c : Char) : Bool :=
  c = ' ' || c = '\t' || c = '\n' || c = '\r' || c = '\x0b' || c = '\x0c'

/-- The class `[\s.-]`. -/
def isSepC (c : Char) : Bool := isWsC c || c = '.' || c = '-'

/-- Email local part class `[A-Za-z0-9._%+-]`. -/
def localC (c : Char) : Bool :=
  c.isAlpha || c.isDigit || c = '.' || c = '_' || c = '%' || c = '+' || c = '-'

/-- Email domain class `[A-Za-z0-9.-]`. -/
def domC (c : Char) : Bool := c.isAlpha || c.isDigit || c = '.' || c = '-'

/-- Email final-label class `[A-Z|a-z]` (the literal `|` is part of the class). -/
def tldC (c : Char) : Bool := c.isAlpha || c = '|'

/-- `\b[A-Za-z0-9._%+-]+@[A-Za-z0-9.-]+\.[A-Z|a-z]{2,}\b` -/
def emailAtoms : List Atom :=
  [.wb, .rep localC 1 none, .rep (· = '@') 1 (some 1), .rep domC 1 none,
   .rep (· = '.') 1 (some 1), .rep tldC 2 none, .wb]

/-- `\+?1?\s*\(?[0-9]{3}\)?[\s.-]?[0-9]{3}[\s.-]?[0-9]{4}` -/
def patUS : List Atom :=
  [.rep (· = '+') 0 (some 1), .rep (· = '1') 0 (some 1), .rep isWsC 0 none,
   .rep (· = '(') 0 (some 1), .rep isDigitC 3 (some 3), .rep (· = ')') 0 (some 1),
   .rep isSepC 0 (some 1), .rep isDigitC 3 (some 3), .rep isSepC 0 (some 1),
   .rep isDigitC 4 (some 4)]

/-- `\+?[0-9]{1,3}[\s.-]?[0-9]{1,4}[\s.-]?[0-9]{1,4}[\s.-]?[0-9]{1,9}` -/
def patIntl : List Atom :=
  [.rep (· = '+') 0 (some 1), .rep isDigitC 1 (some 3), .rep isSepC 0 (some 1),
   .rep isDigitC 1 (some 4), .rep isSepC 0 (some 1), .rep isDigitC 1 (some 4),
   .rep isSepC 0 (some 1), .rep isDigitC 1 (some 9)]

/-- `\([0-9]{3}\)\s*[0-9]{3}-[0-9]{4}` -/
def patParen : List Atom :=
  [.rep (· = '(') 1 (some 1), .rep isDigitC 3 (some 3), .rep (· = ')') 1 (some 1),
   .rep isWsC 0 none, .rep isDigitC 3 (some 3), .rep (· = '-') 1 (some 1),
   .rep isDigitC 4 (some 4)]

/-- `[0-9]{3}-[0-9]{3}-[0-9]{4}` -/
def patDash : List Atom :=
  [.rep isDigitC 3 (some 3), .rep (· = '-') 1 (some 1), .rep isDigitC 3 (some 3),
   .rep (· = '-') 1 (some 1), .rep isDigitC 4 (some 4)]

/-! ### `extract_emails` and `extract_phone_numbers` -/

/-- `extract_emails` of `main.py`. -/
def extract_emails (text : String) : List String :=
  if text = "" then [] else findall emailAtoms text

/-- `re.sub(r'[^\d+]', '', num)`: keep only digits and plus signs. -/
def cleanPhone (num : String) : String :=
  String.mk (num.data.filter (fun c => c.isDigit || c = '+'))

/-- The cleaning/deduplication loop of `extract_phone_numbers`, verbatim:
`cleaned_numbers` accumulates the ORIGINAL strings while the membership test
checks the CLEANED string against that same list of originals. -/
def dedupPhones (acc : List String) : List String → List String
  | [] => acc
  | num :: rest =>
      let cleaned := cleanPhone num
      if 10 ≤ cleaned.length ∧ cleaned ∉ acc then dedupPhones (acc ++ [num]) rest
      else dedupPhones acc rest

/-- `extract_phone_numbers` of `main.py`: run the four patterns in order,
concatenate all matches, then the clean-and-filter loop above. -/
def extract_phone_numbers (text : String) : List String :=
  if text = "" then []
  else
    dedupPhones []
      (findall patUS text ++ findall patIntl text ++
       findall patParen text ++ findall patDash text)

/-! ### Python `set` embedded as a first-seen-order duplicate-free list

Only membership and cardinality of the embedded sets are asserted below;
these are invariant under the unspecified iteration order of a real Python
set. -/

/-- Add an element to a duplicate-free list if not already present. -/
def pyInsert {α : Type} [DecidableEq α] (acc : List α) (t : α) : List α :=
  if t ∈ acc then acc else acc ++ [t]

/-- `set.update`: insert all elements of `l`. -/
def pyUpdate {α : Type} [DecidableEq α] (acc : List α) (l : List α) : List α :=
  l.foldl pyInsert acc

/-- `list(set(l))`, enumerated in first-seen order. -/
def pySet {α : Type} [DecidableEq α] (l : List α) : List α := pyUpdate [] l

theorem mem_pyInsert {α : Type} [DecidableEq α] (acc : List α) (t x : α) :
    x ∈ pyInsert acc t ↔ x ∈ acc ∨ x = t := by
  by_cases h : t ∈ acc <;> simp [pyInsert, h]
  rintro rfl; exact h

theorem nodup_pyInsert {α : Type} [DecidableEq α] (acc : List α) (t : α)
    (h : acc.Nodup) : (pyInsert acc t).Nodup := by
  by_cases ht : t ∈ acc <;> simp [pyInsert, ht, List.nodup_append, h]

theorem mem_pyUpdate {α : Type} [DecidableEq α] (l : List α) :
    ∀ (acc : List α) (x : α), x ∈ pyUpdate acc l ↔ x ∈ acc ∨ x ∈ l := by
  induction l with
  | nil => intro acc x; simp [pyUpdate]
  | cons t l ih =>
      intro acc x
      have : pyUpdate acc (t :: l) = pyUpdate (pyInsert acc t) l := rfl
      rw [this, ih, mem_pyInsert]
      simp [or_assoc]

theorem nodup_pyUpdate {α : Type} [DecidableEq α] (l : List α) :
    ∀ acc : List α, acc.Nodup → (pyUpdate acc l).Nodup := by
  induction l with
  | nil => intro acc h; exact h
  | cons t l ih => intro acc h; exact ih _ (nodup_pyInsert acc t h)

theorem mem_pySet {α : Type} [DecidableEq α] (l : List α) (x : α) :
    x ∈ pySet l ↔ x ∈ l := by
  rw [pySet, mem_pyUpdate]; simp

theorem nodup_pySet {α : Type} [DecidableEq α] (l : List α) : (pySet l).Nodup :=
  nodup_pyUpdate l [] List.nodup_nil

/-! ### String splitting and joining helpers (`str.split('; ')`, `'; '.join`) -/

/-- Worker for `str.split('; ')`: greedy left-to-right scan for the
two-character separator, `cur` holding the current token reversed. -/
def splitOnSemiAux : List Char → List Char → List String
  | [], cur => [String.mk cur.reverse]
  | ';' :: ' ' :: rest, cur => String.mk cur.reverse :: splitOnSemiAux rest []
  | c :: rest, cur => splitOnSemiAux rest (c :: cur)

/-- Python `s.split('; ')`. -/
def splitSemi (s : String) : List String := splitOnSemiAux s.data []

/-- Python `sep.join(l)`. -/
def joinWith (sep : String) (l : List String) : String :=
  String.mk (((l.map String.data).intersperse sep.data).flatten)

/-- Python `'; '.join(l)`. -/
def joinSemi (l : List String) : String := joinWith "; " l

/-! ### Python `datetime` embedding -/

/-- A Python `datetime.datetime` value: Gregorian date, time of day with
microseconds, and an optional fixed UTC offset in minutes (`none` = a naive
datetime, `some off` = an aware one). -/
structure PyDateTime where
  year : Nat
  month : Nat
  day : Nat
  hour : Nat
  minute : Nat
  second : Nat
  micro : Nat
  tz : Option Int
deriving DecidableEq

/-- A Python `datetime.date` (the result of `datetime.date()`). -/
structure PyDate where
  year : Nat
  month : Nat
  day : Nat
deriving DecidableEq

/-- A Python `datetime.time` (the result of `datetime.time()`, which drops
the timezone). -/
structure PyTime where
  hour : Nat
  minute : Nat
  second : Nat
  micro : Nat
deriving DecidableEq

def dateOf (d : PyDateTime) : PyDate := ⟨d.year, d.month, d.day⟩

def timeOf (d : PyDateTime) : PyTime := ⟨d.hour, d.minute, d.second, d.micro⟩

def digitsVal (l : List Char) : Nat := l.foldl (fun a c => a * 10 + (c.toNat - 48)) 0

def isLeap (y : Nat) : Bool := (y % 4 = 0 && y % 100 ≠ 0) || y % 400 = 0

def daysInMonth (y m : Nat) : Nat :=
  if m = 2 then (if isLeap y then 29 else 28)
  else if m = 4 ∨ m = 6 ∨ m = 9 ∨ m = 11 then 30 else 31

/-- Validity of a year/month/day triple for `datetime.datetime`
(`MINYEAR = 1`, `MAXYEAR = 9999`). -/
def validYMD (y m d : Nat) : Bool :=
  1 ≤ y && y ≤ 9999 && 1 ≤ m && m ≤ 12 && 1 ≤ d && d ≤ daysInMonth y m

/-- Days from 1970-01-01 of a civil date (standard civil-from-days inverse,
truncating `Int` division as in the reference algorithm). -/
def daysFromCivil (y m d : Nat) : Int :=
  let yi : Int := if m ≤ 2 then (y : Int) - 1 else (y : Int)
  let era : Int := (if 0 ≤ yi then yi else yi - 399) / 400
  let yoe : Int := yi - era * 400
  let mp : Int := ((m : Int) + 9) % 12
  let doy : Int := (153 * mp + 2) / 5 + (d : Int) - 1
  let doe : Int := yoe * 365 + yoe / 4 - yoe / 100 + doy
  era * 146097 + doe - 719468

/-- Strict zero-padded `YYYY-MM-DD` (the date part accepted by
`datetime.fromisoformat`). -/
def parseYMDpadded (cs : List Char) : Option (Nat × Nat × Nat) :=
  match cs with
  | [y1, y2, y3, y4, s1, m1, m2, s2, d1, d2] =>
      if s1 = '-' ∧ s2 = '-' ∧ [y1, y2, y3, y4, m1, m2, d1, d2].all isDigitC then
        let y := digitsVal [y1, y2, y3, y4]
        let m := digitsVal [m1, m2]
        let d := digitsVal [d1, d2]
        if validYMD y m d then some (y, m, d) else none
      else none
  | _ => none

/-- A `±HH:MM` UTC offset, in minutes. -/
def parseOffset (cs : List Char) : Option Int :=
  match cs with
  | [sg, h1, h2, c, m1, m2] =>
      if (sg = '+' ∨ sg = '-') ∧ c = ':' ∧ [h1, h2, m1, m2].all isDigitC then
        let hh := digitsVal [h1, h2]
        let mm := digitsVal [m1, m2]
        if hh < 24 ∧ mm < 60 then
          some ((if sg = '-' then -1 else 1) * ((hh : Int) * 60 + (mm : Int)))
        else none
      else none
  | _ => none

/-- The `HH:MM[:SS[.ffffff]][±HH:MM]` time-of-day tail of an ISO string. -/
def parseTimePart (y m d : Nat) (t : List Char) : Option PyDateTime :=
  match t with
  | h1 :: h2 :: c1 :: mi1 :: mi2 :: rest =>
      if c1 = ':' ∧ [h1, h2, mi1, mi2].all isDigitC then
        let hh := digitsVal [h1, h2]
        let mi := digitsVal [mi1, mi2]
        if hh < 24 ∧ mi < 60 then
          match rest with
          | [] => some ⟨y, m, d, hh, mi, 0, 0, none⟩
          | ':' :: s1 :: s2 :: rest2 =>
              if [s1, s2].all isDigitC then
                let ss := digitsVal [s1, s2]
                if ss < 60 then
                  match rest2 with
                  | [] => some ⟨y, m, d, hh, mi, ss, 0, none⟩
                  | '.' :: rest3 =>
                      let frac := rest3.takeWhile isDigitC
                      let after := rest3.dropWhile isDigitC
                      if 1 ≤ frac.length ∧ frac.length ≤ 6 then
                        let micro := digitsVal frac * 10 ^ (6 - frac.length)
                        match after with
                        | [] => some ⟨y, m, d, hh, mi, ss, micro, none⟩
                        | _ => (parseOffset after).map
                            (fun off => ⟨y, m, d, hh, mi, ss, micro, some off⟩)
                      else none
                  | _ => (parseOffset rest2).map
                      (fun off => ⟨y, m, d, hh, mi, ss, 0, some off⟩)
                else none
              else none
          | _ => (parseOffset rest).map (fun off => ⟨y, m, d, hh, mi, 0, 0, some off⟩)
        else none
      else none
  | _ => none

/-- `datetime.fromisoformat`: `YYYY-MM-DD` alone (a naive midnight) or
followed by a separator and a time of day with an optional UTC offset. -/
def fromisoformat (s : String) : Option PyDateTime :=
  let cs := s.data
  match parseYMDpadded (cs.take 10) with
  | none => none
  | some (y, m, d) =>
      match cs.drop 10 with
      | [] => some ⟨y, m, d, 0, 0, 0, 0, none⟩
      | sep :: t => if sep = 'T' ∨ sep = ' ' then parseTimePart y m d t else none

/-- Worker for splitting on `'-'` (for `strptime` with format `%Y-%m-%d`). -/
def splitDashAux : List Char → List Char → List (List Char)
  | [], cur => [cur.reverse]
  | '-' :: rest, cur => cur.reverse :: splitDashAux rest []
  | c :: rest, cur => splitDashAux rest (c :: cur)

/-- `datetime.strptime(s, '%Y-%m-%d')`: a four-digit year and one- or
two-digit month and day separated by dashes, consuming the whole string,
yielding a naive midnight datetime. -/
def strptimeYmd (s : String) : Option PyDateTime :=
  match splitDashAux s.data [] with
  | [ys, ms, ds] =>
      if ys.length = 4 ∧ ys.all isDigitC ∧
         1 ≤ ms.length ∧ ms.length ≤ 2 ∧ ms.all isDigitC ∧
         1 ≤ ds.length ∧ ds.length ≤ 2 ∧ ds.all isDigitC then
        let y := digitsVal ys
        let m := digitsVal ms
        let d := digitsVal ds
        if validYMD y m d then some ⟨y, m, d, 0, 0, 0, 0, none⟩ else none
      else none
  | _ => none

/-- `s.replace('Z', '+00:00')` on the character list. -/
def replaceZ : List Char → List Char
  | [] => []
  | 'Z' :: rest => '+' :: '0' :: '0' :: ':' :: '0' :: '0' :: replaceZ rest
  | c :: rest => c :: replaceZ rest

def replaceZstr (s : String) : String := String.mk (replaceZ s.data)

/-- `'T' in s`. -/
def containsT (s : String) : Bool := s.data.contains 'T'

/-- Seconds since the epoch of the instant denoted by a datetime, aware
datetimes shifted to UTC by their offset.  Used only to embed datetime
subtraction. -/
def toUTCSeconds (dt : PyDateTime) : Rat :=
  ((daysFromCivil dt.year dt.month dt.day) * 86400 +
    ((dt.hour * 3600 + dt.minute * 60 + dt.second : Nat) : Int) -
    (dt.tz.getD 0) * 60 : Int) + (dt.micro : Rat) / 1000000

/-- Python datetime subtraction `a - b` in seconds: raises `TypeError` when
exactly one operand is offset-aware. -/
def pySub (a b : PyDateTime) : Except String Rat :=
  if a.tz.isSome != b.tz.isSome then
    .error "TypeError: can't subtract offset-naive and offset-aware datetimes"
  else .ok (toUTCSeconds a - toUTCSeconds b)

/-! ### The raw calendar event record (every field optional) -/

/-- One entry of the `attendees` list. -/
structure Attendee where
  email : Option String := none
  displayName : Option String := none
  responseStatus : Option String := none
deriving DecidableEq

/-- The `start`/`end` sub-objects. -/
structure EventTime where
  dateTime : Option String := none
  date : Option String := none
deriving DecidableEq

/-- The `organizer`/`creator` sub-objects. -/
structure Person where
  email : Option String := none
  displayName : Option String := none
deriving DecidableEq

/-- One entry of `conferenceData.entryPoints`. -/
structure EntryPoint where
  entryPointType : Option String := none
  uri : Option String := none
deriving DecidableEq

/-- `conferenceData.conferenceSolution`. -/
structure ConferenceSolution where
  name : Option String := none
deriving DecidableEq

/-- The `conferenceData` sub-object. -/
structure ConferenceData where
  conferenceSolution : Option ConferenceSolution := none
  entryPoints : List EntryPoint := []
deriving DecidableEq

/-- A raw calendar event.  Every field is optional; an absent `attendees` or
`attachments` key is indistinguishable to the code from an empty list, so
those are embedded as plain lists.  The raw `reminders` value is a dict that
the code only ever passes to `str`; it is embedded by that string rendering,
with `none` standing for an absent key (whose rendering defaults to the
rendering of the empty dict). -/
structure RawEvent where
  id : Option String := none
  summary : Option String := none
  description : Option String := none
  location : Option String := none
  start : Option EventTime := none
  end_ : Option EventTime := none
  attendees : List Attendee := []
  organizer : Option Person := none
  creator : Option Person := none
  conferenceData : Option ConferenceData := none
  recurringEventId : Option String := none
  htmlLink : Option String := none
  status : Option String := none
  visibility : Option String := none
  created : Option String := none
  updated : Option String := none
  colorId : Option String := none
  transparency : Option String := none
  reminders : Option String := none
  attachments : List (Option String) := []
deriving DecidableEq

/-- The flat row built by `parse_event_data` for one event (the keys of the
`parsed_event` dict, in source order). -/
structure NormalizedRow where
  event_id : String
  summary : String
  description : String
  location : String
  start_date : Option PyDate
  start_time : Option PyTime
  end_date : Option PyDate
  end_time : Option PyTime
  all_day : Bool
  duration_hours : Option Rat
  status : String
  visibility : String
  organizer_email : String
  organizer_name : String
  creator_email : String
  creator_name : String
  attendee_emails : String
  attendee_names : String
  attendee_statuses : String
  attendee_count : Nat
  all_extracted_emails : String
  extracted_phone_numbers : String
  recurring_event_id : String
  is_recurring : Bool
  html_link : String
  conference_type : String
  meeting_links : String
  created : String
  updated : String
  reminders : String
  attachments : String
  color_id : String
  transparency : String
deriving DecidableEq

/-! ### `parse_event_data` -/

/-- `combined_text`: the space-join of the non-empty values among summary,
description and location (`' '.join(filter(None, [...]))`). -/
def combinedText (e : RawEvent) : String :=
  joinWith " "
    (([e.summary.getD "", e.description.getD "", e.location.getD ""]).filter (· ≠ ""))

/-- `attendee_emails`: `[att.get('email', '') for att in attendees_list]`. -/
def attendeeEmailsOf (e : RawEvent) : List String :=
  e.attendees.map (fun a => a.email.getD "")

/-- `all_emails = list(set(attendee_emails + text_emails))`. -/
def allEmailsOf (e : RawEvent) : List String :=
  pySet (attendeeEmailsOf e ++ extract_emails (combinedText e))

/-- The start/end parsing block of `parse_event_data` (lines 191-211): the
`try` body returns the two parsed datetimes and the all-day flag, and any
parse failure is caught, yielding `(None, None, False)`. -/
def parseTimes (e : RawEvent) : Option PyDateTime × Option PyDateTime × Bool :=
  let start := e.start.getD {}
  let stop := e.end_.getD {}
  let start_time := start.dateTime.getD (start.date.getD "")
  let end_time := stop.dateTime.getD (stop.date.getD "")
  let attempt : Option (PyDateTime × PyDateTime × Bool) :=
    if containsT start_time then
      match fromisoformat (replaceZstr start_time), fromisoformat (replaceZstr end_time) with
      | some s, some en => some (s, en, false)
      | _, _ => none
    else
      match strptimeYmd start_time, strptimeYmd end_time with
      | some s, some en => some (s, en, true)
      | _, _ => none
  match attempt with
  | some (s, en, ad) => (some s, some en, ad)
  | none => (none, none, false)

/-- The duration computation (lines 213-216).  It sits OUTSIDE the
`try`/`except`, so the `TypeError` raised by subtracting an offset-aware and
an offset-naive datetime propagates. -/
def durationOf : Option PyDateTime → Option PyDateTime → Except String (Option Rat)
  | some s, some en =>
      match pySub en s with
      | .error msg => .error msg
      | .ok secs => .ok (some (secs / 3600))
  | _, _ => .ok none

/-- The `parsed_event` dict built for one event. -/
def mkRow (e : RawEvent) (start_dt end_dt : Option PyDateTime) (all_day : Bool)
    (duration : Option Rat) : NormalizedRow :=
  let attendee_names := e.attendees.map (fun a => a.displayName.getD "")
  let attendee_statuses := e.attendees.map (fun a => a.responseStatus.getD "")
  let conference_data := e.conferenceData.getD {}
  let meeting_links :=
    (conference_data.entryPoints.filter (fun ep => ep.entryPointType = some "video")).map
      (fun ep => ep.uri.getD "")
  { event_id := e.id.getD ""
    summary := e.summary.getD ""
    description := e.description.getD ""
    location := e.location.getD ""
    start_date := start_dt.map dateOf
    start_time := if all_day then none else start_dt.map timeOf
    end_date := end_dt.map dateOf
    end_time := if all_day then none else end_dt.map timeOf
    all_day := all_day
    duration_hours := duration
    status := e.status.getD ""
    visibility := e.visibility.getD "default"
    organizer_email := (e.organizer.getD {}).email.getD ""
    organizer_name := (e.organizer.getD {}).displayName.getD ""
    creator_email := (e.creator.getD {}).email.getD ""
    creator_name := (e.creator.getD {}).displayName.getD ""
    attendee_emails := joinSemi (attendeeEmailsOf e)
    attendee_names := joinSemi attendee_names
    attendee_statuses := joinSemi attendee_statuses
    attendee_count := e.attendees.length
    all_extracted_emails := joinSemi (allEmailsOf e)
    extracted_phone_numbers := joinSemi (extract_phone_numbers (combinedText e))
    recurring_event_id := e.recurringEventId.getD ""
    is_recurring := e.recurringEventId.isSome
    html_link := e.htmlLink.getD ""
    conference_type := (conference_data.conferenceSolution.getD {}).name.getD ""
    meeting_links := joinSemi meeting_links
    created := e.created.getD ""
    updated := e.updated.getD ""
    reminders := e.reminders.getD "\x7b\x7d"
    attachments := joinSemi (e.attachments.map (fun t => t.getD ""))
    color_id := e.colorId.getD ""
    transparency := e.transparency.getD "opaque" }

/-- The per-event body of the `parse_event_data` loop.  Every field access is
defaulted, and the date/time parse block is caught, but the duration
subtraction can raise. -/
def parseOneEvent (e : RawEvent) : Except String NormalizedRow :=
  let t := parseTimes e
  match durationOf t.1 t.2.1 with
  | .error msg => .error msg
  | .ok duration => .ok (mkRow e t.1 t.2.1 t.2.2 duration)

/-- `parse_event_data`: the whole loop; an exception from any event aborts
the batch. -/
def parse_event_data (events : List RawEvent) : Except String (List NormalizedRow) :=
  events.mapM parseOneEvent

/-! ### The summary-statistics block of `main` (lines 366-378) -/

/-- The tokens a row contributes to the email set:
`if event['all_extracted_emails']: all_emails.update(....split('; '))`. -/
def emailTokensOfRow (r : NormalizedRow) : List String :=
  if r.all_extracted_emails ≠ "" then splitSemi r.all_extracted_emails else []

/-- The tokens a row contributes to the phone set. -/
def phoneTokensOfRow (r : NormalizedRow) : List String :=
  if r.extracted_phone_numbers ≠ "" then splitSemi r.extracted_phone_numbers else []

/-- The accumulated `all_emails` set over the rows. -/
def summaryEmailSet (rows : List NormalizedRow) : List String :=
  rows.foldl (fun acc r => pyUpdate acc (emailTokensOfRow r)) []

/-- The accumulated `all_phones` set over the rows. -/
def summaryPhoneSet (rows : List NormalizedRow) : List String :=
  rows.foldl (fun acc r => pyUpdate acc (phoneTokensOfRow r)) []

/-- `len(all_emails)`: the reported count of unique email addresses. -/
def summaryEmailCount (rows : List NormalizedRow) : Nat := (summaryEmailSet rows).length

/-- `len(all_phones)`: the reported count of unique phone numbers. -/
def summaryPhoneCount (rows : List NormalizedRow) : Nat := (summaryPhoneSet rows).length

/-! ### The control flow of `main` (argument validation, exit codes)

The external collaborators (OAuth authentication, the paginated fetch, the
Excel write) are parameters: only their success/failure outcome, and the
fetched events on success, influence the control flow being verified. -/

/-- Outcome of `authenticate_google_calendar` as observed by `main`: either a
usable service, or failure (a `None` return or an exception, both of which
exit with code 1). -/
inductive AuthOutcome where
  | success
  | failure
deriving DecidableEq

/-- Outcome of `get_calendar_events`. -/
inductive FetchOutcome where
  | success (events : List RawEvent)
  | failure
deriving DecidableEq

/-- The distinct console messages of `main` that the claims mention.
`usage` is the `show_help` text; `daysError` is the single-line
`Error: --days must be a positive number`. -/
inductive MainMsg where
  | usage
  | daysError
  | authenticating
  | authFailed
  | fetchFailed
  | noEvents
  | parseFailed
  | summaryShown
  | exportFailed
  | doneMsg
deriving DecidableEq

/-- Observable result of a run of `main`: the `sys.exit` code (the script
falling off the end is exit 0) and the relevant messages printed, in order. -/
structure MainOut where
  exitCode : Nat
  printed : List MainMsg
deriving DecidableEq

/-- Python truthiness test `not args.days` for the parsed `--days` value:
true when the flag is absent or its value is the integer 0. -/
def pyFalsyDays : Option Int → Bool
  | none => true
  | some d => d == 0

/-- The control flow of `main` (lines 309-397): help/absent-days check,
positivity check, authentication, fetch, empty-result check, parse, summary,
export.  `exportOk` is the outcome of `export_to_excel`. -/
def runMain (days : Option Int) (helpFlag : Bool) (auth : AuthOutcome)
    (fetch : FetchOutcome) (exportOk : Bool) : MainOut :=
  if helpFlag || pyFalsyDays days then
    { exitCode := if helpFlag then 0 else 1, printed := [.usage] }
  else if days.getD 0 ≤ 0 then
    { exitCode := 1, printed := [.daysError] }
  else
    match auth with
    | .failure => { exitCode := 1, printed := [.authenticating, .authFailed] }
    | .success =>
        match fetch with
        | .failure => { exitCode := 1, printed := [.authenticating, .fetchFailed] }
        | .success events =>
            if events.isEmpty then
              { exitCode := 0, printed := [.authenticating, .noEvents] }
            else
              match parse_event_data events with
              | .error _ => { exitCode := 1, printed := [.authenticating, .parseFailed] }
              | .ok _ =>
                  if exportOk then
                    { exitCode := 0, printed := [.authenticating, .summaryShown, .doneMsg] }
                  else
                    { exitCode := 1,
                      printed := [.authenticating, .summaryShown, .exportFailed] }

/-! ### Supporting lemmas -/

/-- Every string that the clean-and-filter loop emits either was already in
the accumulator or passed the `len(cleaned) >= 10` test. -/
theorem mem_dedupPhones :
    ∀ (cands acc : List String) (s : String), s ∈ dedupPhones acc cands →
      s ∈ acc ∨ 10 ≤ (cleanPhone s).length := by
  intro cands
  induction cands with
  | nil => intro acc s h; exact Or.inl h
  | cons num rest ih =>
      intro acc s h
      rw [dedupPhones] at h
      split at h
      · rename_i hc
        rcases ih _ _ h with hmem | hlen
        · rcases List.mem_append.mp hmem with ha | hnum
          · exact Or.inl ha
          · right
            rw [List.mem_singleton.mp hnum]
            exact hc.1
        · exact Or.inr hlen
      · exact ih _ _ h

/-- The size of the set accumulated by repeated `set.update` calls equals the
number of distinct elements of the concatenation of the updates. -/
theorem length_foldl_pyUpdate (tokss : List (List String)) :
    ∀ acc : List String, acc.Nodup →
      (tokss.foldl pyUpdate acc).length = (acc ++ tokss.flatten).dedup.length := by
  induction tokss with
  | nil =>
      intro acc h
      simp [List.dedup_eq_self.mpr h]
  | cons t ts ih =>
      intro acc h
      have step : (t :: ts).foldl pyUpdate acc = ts.foldl pyUpdate (pyUpdate acc t) := rfl
      rw [step, ih _ (nodup_pyUpdate t acc h), ← List.card_toFinset, ← List.card_toFinset]
      congr 1
      ext x
      simp only [List.mem_toFinset, List.mem_append, mem_pyUpdate, List.flatten_cons,
        List.mem_flatten]
      tauto

/-! ### Claim C1 -/

/-- An event whose start is a date-time with a UTC offset and whose end is a
date-only string.  Both parse successfully inside the `try` block (the end as
an offset-naive midnight), so the duration subtraction of an aware and a
naive datetime is reached. -/
def evAwareNaive : RawEvent :=
  { id := some "bad",
    start := some { dateTime := some "2024-03-01T09:00:00Z" },
    end_ := some { date := some "2024-03-02" } }

/-- C1.  The claim states that `parse_event_data` never raises, and in
particular that a date-time start paired with a date-only end cannot abort
the batch.  The code violates exactly this: on such an event the duration
subtraction `(end_dt - start_dt)` — which sits outside the `try`/`except` —
raises `TypeError` (aware minus naive), aborting the whole batch. -/
theorem c1_mixed_bounds_abort_batch :
    parse_event_data [evAwareNaive] =
      Except.error "TypeError: can't subtract offset-naive and offset-aware datetimes" := rfl

/-! ### Claim C2 -/

/-- C2.  The claim states that `extract_phone_numbers` returns no two entries
with the same normalized digit string.  It fails: the loop appends the
ORIGINAL string to `cleaned_numbers` but tests membership of the CLEANED
string in that list, so the test never fires when the original contains
separators.  On the input `"555-123-4567"`, three of the four patterns match
the same string, and all three copies are emitted, all with normalized value
`"5551234567"`. -/
theorem c2_dedup_never_fires :
    extract_phone_numbers "555-123-4567" =
      ["555-123-4567", "555-123-4567", "555-123-4567"] ∧
    cleanPhone "555-123-4567" = "5551234567" := by
  decide

/-! ### Claim C3 -/

/-- C3 counterexample.  The output `"+123 4567 8 9"` of
`extract_phone_numbers` has only 9 digits after stripping: the code's filter
compares the length of the cleaned string — which still contains the plus
sign — against 10, so 9 digits plus a leading `+` pass. -/
theorem c3_counterexample :
    "+123 4567 8 9" ∈ extract_phone_numbers "+123 4567 8 9" ∧
    (("+123 4567 8 9").data.filter Char.isDigit).length = 9 := by
  decide

/-- C3 (amended).  Every string returned by `extract_phone_numbers` has,
after stripping every character that is not a digit or a plus sign, length at
least 10 — digits and plus signs together.  Hence the digit count is at least
10 only when no plus sign is present, and at least 9 otherwise. -/
theorem c3_amended_cleaned_length (text s : String)
    (h : s ∈ extract_phone_numbers text) : 10 ≤ (cleanPhone s).length := by
  rw [extract_phone_numbers] at h
  split at h
  · simp at h
  · rcases mem_dedupPhones _ _ _ h with hmem | hlen
    · simp at hmem
    · exact hlen

/-- C3 witness. -/
theorem c3_witness : 10 ≤ (cleanPhone "555-123-4567").length :=
  c3_amended_cleaned_length "555-123-4567" "555-123-4567" (by decide)

/-! ### Claim C4 -/

/-- The count the claim describes: distinct NON-EMPTY tokens of the split of
every row's joined email string. -/
def claimedUniqueEmailCount (rows : List NormalizedRow) : Nat :=
  (((rows.map (fun r => splitSemi r.all_extracted_emails)).flatten).filter
    (fun t => t ≠ "")).dedup.length

/-- The count the code computes, stated over splits: distinct tokens — empty
tokens included — of the split of every row's NON-EMPTY joined email
string. -/
def distinctEmailTokenCount (rows : List NormalizedRow) : Nat :=
  ((rows.map emailTokensOfRow).flatten).dedup.length

/-- Same for phone numbers. -/
def distinctPhoneTokenCount (rows : List NormalizedRow) : Nat :=
  ((rows.map phoneTokensOfRow).flatten).dedup.length

/-- An event whose attendee list contains one attendee without an email plus
one with `a@x.com`; its row's joined email field is `"; a@x.com"`, which is
non-empty but splits into an empty token and `"a@x.com"`. -/
def evEmptyAttendee : RawEvent :=
  { id := some "e4",
    attendees := [{}, { email := some "a@x.com" }] }

def rowsEmptyAttendee : List NormalizedRow :=
  (parse_event_data [evEmptyAttendee]).toOption.getD []

/-- C4 counterexample.  On the rows normalized from `evEmptyAttendee`, the
code's summary counts 2 unique emails while the number of distinct non-empty
tokens is 1: the empty token of the non-empty joined string `"; a@x.com"` IS
counted by the code, contradicting the claim that an empty string is never
counted as one unique email. -/
theorem c4_counterexample :
    parse_event_data [evEmptyAttendee] = Except.ok rowsEmptyAttendee ∧
    summaryEmailCount rowsEmptyAttendee = 2 ∧
    claimedUniqueEmailCount rowsEmptyAttendee = 1 ∧
    summaryEmailCount rowsEmptyAttendee ≠ claimedUniqueEmailCount rowsEmptyAttendee :=
  ⟨rfl, by decide, by decide, by decide⟩

/-- C4 (amended).  The summary email count equals the number of distinct
tokens — empty tokens included — obtained by splitting every row's non-empty
joined email string on `"; "`; a row whose joined string is empty contributes
zero tokens.  Likewise for phone numbers. -/
theorem c4_amended_summary_counts (rows : List NormalizedRow) :
    summaryEmailCount rows = distinctEmailTokenCount rows ∧
    summaryPhoneCount rows = distinctPhoneTokenCount rows := by
  constructor
  · rw [summaryEmailCount, summaryEmailSet, distinctEmailTokenCount, ← List.foldl_map,
      length_foldl_pyUpdate _ [] List.nodup_nil]
    simp
  · rw [summaryPhoneCount, summaryPhoneSet, distinctPhoneTokenCount, ← List.foldl_map,
      length_foldl_pyUpdate _ [] List.nodup_nil]
    simp

/-! ### Claim C6 -/

/-- A raw event carrying only an `id`. -/
def idOnlyEvent (idStr : String) : RawEvent := { id := some idStr }

/-- C6 counterexample.  The claim states that an id-only event normalizes to
a row in which EVERY derived string field is empty.  The `visibility` field
of the resulting row is `"default"`, not the empty string (the code defaults
it with `event.get('visibility', 'default')`). -/
theorem c6_counterexample :
    ∃ r, parse_event_data [idOnlyEvent "e1"] = Except.ok [r] ∧ r.visibility ≠ "" :=
  ⟨_, rfl, by decide⟩

/-- C6 (amended).  An id-only event normalizes without error; every string
field derived from a missing raw field is empty EXCEPT the three defaulted
ones — `visibility = "default"`, `transparency = "opaque"` and `reminders`
rendering the empty defaults dict — while `event_id` carries the given id;
`all_day` is false and `duration_hours` is null. -/
theorem c6_amended_id_only_row (idStr : String) :
    parse_event_data [idOnlyEvent idStr] = Except.ok
      [{ event_id := idStr, summary := "", description := "", location := "",
         start_date := none, start_time := none, end_date := none, end_time := none,
         all_day := false, duration_hours := none, status := "",
         visibility := "default", organizer_email := "", organizer_name := "",
         creator_email := "", creator_name := "", attendee_emails := "",
         attendee_names := "", attendee_statuses := "", attendee_count := 0,
         all_extracted_emails := "", extracted_phone_numbers := "",
         recurring_event_id := "", is_recurring := false, html_link := "",
         conference_type := "", meeting_links := "", created := "", updated := "",
         reminders := "\x7b\x7d", attachments := "", color_id := "",
         transparency := "opaque" }] := rfl

/-! ### Claim C7 -/

/-- C7.  For every raw event, the `all_emails` list is the set union of the
attendee email strings and the text-extracted emails: membership is plain
string equality (so strings differing only in case are distinct members), the
list is duplicate-free (each distinct email appears exactly once in the
semicolon-joined rendering), and the row's `all_extracted_emails` field is
its semicolon-join. -/
theorem c7_email_union (e : RawEvent) :
    (∀ s, s ∈ allEmailsOf e ↔
        s ∈ attendeeEmailsOf e ∨ s ∈ extract_emails (combinedText e)) ∧
    (allEmailsOf e).Nodup ∧
    ∀ r, parseOneEvent e = Except.ok r →
      r.all_extracted_emails = joinSemi (allEmailsOf e) := by
  refine ⟨fun s => ?_, nodup_pySet _, fun r h => ?_⟩
  · rw [allEmailsOf, mem_pySet, List.mem_append]
  · rw [parseOneEvent] at h
    cases hd : durationOf (parseTimes e).1 (parseTimes e).2.1 with
    | error msg => rw [hd] at h; cases h
    | ok dur =>
        rw [hd] at h
        injection h with h2
        rw [← h2]
        rfl

/-- An event with one attendee email and one further email inside the
description text. -/
def evUnionWitness : RawEvent :=
  { id := some "s7",
    attendees := [{ email := some "alice@x.com" }],
    description := some "contact bob@y.com" }

def rowUnionWitness : NormalizedRow := mkRow evUnionWitness none none false none

/-- C7 witness: on a concrete event, the attendee email and the text email
are both members, and the row's field is the join. -/
theorem c7_witness :
    rowUnionWitness.all_extracted_emails = joinSemi (allEmailsOf evUnionWitness) ∧
    "alice@x.com" ∈ allEmailsOf evUnionWitness ∧
    "bob@y.com" ∈ allEmailsOf evUnionWitness :=
  ⟨(c7_email_union evUnionWitness).2.2 rowUnionWitness rfl,
   ((c7_email_union evUnionWitness).1 "alice@x.com").mpr (Or.inl (by decide)),
   ((c7_email_union evUnionWitness).1 "bob@y.com").mpr (Or.inr (by decide))⟩

/-! ### Claim C8 -/

/-- C8 counterexample.  The claim states that a non-positive days value exits
non-zero AFTER PRINTING A USAGE MESSAGE.  For a negative value the exit code
is 1, but what is printed is the single-line days error, not the usage
message (`show_help` runs only when the flag is absent or zero, or with
`--help`). -/
theorem c8_counterexample :
    (runMain (some (-5)) false .success (.success []) true).exitCode = 1 ∧
    MainMsg.usage ∉ (runMain (some (-5)) false .success (.success []) true).printed := by
  decide

/-- C8 (amended).  Without `--help`: an absent or zero days value prints the
usage message and exits 1; a negative days value prints the days error
message and exits 1; in both cases authentication is never attempted.  When
the days value is positive and authentication and fetch succeed with zero
events, the program exits 0 after the no-events message. -/
theorem c8_amended_exit_codes (days : Option Int) (auth : AuthOutcome)
    (fetch : FetchOutcome) (exportOk : Bool) :
    ((days = none ∨ days = some 0) →
      runMain days false auth fetch exportOk = { exitCode := 1, printed := [.usage] }) ∧
    (∀ d : Int, days = some d → d < 0 →
      runMain days false auth fetch exportOk = { exitCode := 1, printed := [.daysError] }) ∧
    (∀ d : Int, days = some d → 0 < d →
      runMain days false .success (.success []) exportOk =
        { exitCode := 0, printed := [.authenticating, .noEvents] }) := by
  refine ⟨fun h => ?_, fun d hd hneg => ?_, fun d hd hpos => ?_⟩
  · rcases h with h | h <;> subst h <;> simp [runMain, pyFalsyDays]
  · subst hd
    have h0 : (d == 0) = false := beq_eq_false_iff_ne.mpr (by omega)
    have hle : d ≤ 0 := by omega
    simp [runMain, pyFalsyDays, h0, hle]
  · subst hd
    have h0 : (d == 0) = false := beq_eq_false_iff_ne.mpr (by omega)
    have hle : ¬ d ≤ 0 := by omega
    simp [runMain, pyFalsyDays, h0, hle]

/-- C8 witness. -/
theorem c8_witness :
    runMain (some (-5)) false .success (.success []) true =
      { exitCode := 1, printed := [.daysError] } ∧
    runMain (some 3) false .success (.success []) true =
      { exitCode := 0, printed := [.authenticating, .noEvents] } :=
  ⟨(c8_amended_exit_codes (some (-5)) .success (.success []) true).2.1 (-5) rfl (by decide),
   (c8_amended_exit_codes (some 3) .success (.success []) true).2.2 3 rfl (by decide)⟩

/-! ### Claim C9 -/

/-- C9.  Whenever the attendee list contains an attendee without an email
sub-field, the empty string is a member of the `all_emails` set (it enters
via `att.get('email', '')`), and hence of the semicolon-joined rendering as
an empty token. -/
theorem c9_missing_email_empty_member (e : RawEvent)
    (h : ∃ a ∈ e.attendees, a.email = none) : "" ∈ allEmailsOf e := by
  rw [allEmailsOf, mem_pySet, List.mem_append]
  left
  rcases h with ⟨a, ha, he⟩
  exact List.mem_map.mpr ⟨a, ha, by rw [he]; rfl⟩

/-- A raw event whose single attendee record has no email. -/
def evNoEmailAttendee : RawEvent := { id := some "e9", attendees := [{}] }

/-- C9 witness. -/
theorem c9_witness : "" ∈ allEmailsOf evNoEmailAttendee :=
  c9_missing_email_empty_member evNoEmailAttendee ⟨{}, by decide, rfl⟩

/-! ### Claim C10 -/

/-- C10.  For every event whose normalization returns a row, `is_recurring`
is true exactly when the `recurringEventId` key is present — even when its
value is the empty string — and `recurring_event_id` is the value defaulted
to the empty string. -/
theorem c10_recurring_flag (e : RawEvent) (r : NormalizedRow)
    (h : parseOneEvent e = Except.ok r) :
    (r.is_recurring = true ↔ e.recurringEventId ≠ none) ∧
    r.recurring_event_id = e.recurringEventId.getD "" := by
  rw [parseOneEvent] at h
  cases hd : durationOf (parseTimes e).1 (parseTimes e).2.1 with
  | error msg => rw [hd] at h; cases h
  | ok dur =>
      rw [hd] at h
      injection h with h2
      rw [← h2]
      exact ⟨Option.isSome_iff_ne_none, rfl⟩

/-- An event whose `recurringEventId` is present but empty. -/
def evEmptyRecurring : RawEvent := { id := some "er", recurringEventId := some "" }

def rowEmptyRecurring : NormalizedRow := mkRow evEmptyRecurring none none false none

/-- C10 witness: the flag is true even though the value is the empty
string. -/
theorem c10_witness :
    rowEmptyRecurring.is_recurring = true ∧ rowEmptyRecurring.recurring_event_id = "" :=
  ⟨((c10_recurring_flag evEmptyRecurring rowEmptyRecurring rfl).1).mpr (by decide),
   (c10_recurring_flag evEmptyRecurring rowEmptyRecurring rfl).2⟩

end GCal
